import Mathlib

/-!
Verification of the AI Reality Integrity Engine backend (src/backend/main.py).

The backend is a fact-checking pipeline: claim extraction, evidence
retrieval, NLI verification and verdict aggregation.  The external services
(the chat endpoint, the stdlib JSON parser, the search provider) are modelled
as explicit function parameters; everything else is a direct shallow
embedding of the Python source.  Python floats are modelled as exact
rationals: every operation the source performs on scores (comparison, min,
max, subtraction with one operand zero) is exact, so no rounding behaviour
is lost.
-/

namespace RealityEngine

mutual

/-- JSON values, the shape of what Python json.loads returns.  Objects keep
insertion order like Python dicts.  Arrays and objects carry their own spine
types so every recursion over them is structural. -/
inductive JsonVal where
  | null : JsonVal
  | bool (b : Bool) : JsonVal
  | num (q : ℚ) : JsonVal
  | str (s : String) : JsonVal
  | arr (xs : JsonArr) : JsonVal
  | obj (kvs : JsonObj) : JsonVal

/-- Spine of a JSON array. -/
inductive JsonArr where
  | nil : JsonArr
  | cons (v : JsonVal) (tl : JsonArr) : JsonArr

/-- Spine of a JSON object: ordered key/value pairs. -/
inductive JsonObj where
  | nil : JsonObj
  | cons (k : String) (v : JsonVal) (tl : JsonObj) : JsonObj

end

/-- The elements of a JSON array as a Lean list. -/
def JsonArr.toList : JsonArr → List JsonVal
  | .nil => []
  | .cons v tl => v :: tl.toList

/-- Build a JSON array from a Lean list. -/
def JsonArr.ofList : List JsonVal → JsonArr
  | [] => .nil
  | v :: tl => .cons v (JsonArr.ofList tl)

/-- The members of a JSON object as a Lean association list. -/
def JsonObj.toList : JsonObj → List (String × JsonVal)
  | .nil => []
  | .cons k v tl => (k, v) :: tl.toList

/-- Build a JSON object from a Lean association list. -/
def JsonObj.ofList : List (String × JsonVal) → JsonObj
  | [] => .nil
  | (k, v) :: tl => .cons k v (JsonObj.ofList tl)

/-- Python dict lookup on a JSON object (first match; the parser keeps
keys unique). -/
def JsonObj.lookup? : JsonObj → String → Option JsonVal
  | .nil, _ => none
  | .cons k2 v tl, k => if k2 = k then some v else tl.lookup? k

/-- Remove a key from a JSON object. -/
def JsonObj.erase : JsonObj → String → JsonObj
  | .nil, _ => .nil
  | .cons k2 v tl, k =>
      if k2 = k then tl.erase k else .cons k2 v (tl.erase k)

/-- Left bracket brace character. -/
def lbrace : Char := Char.ofNat 123

/-- Right bracket brace character. -/
def rbrace : Char := Char.ofNat 125

/-- Python truthiness of a JSON value. -/
def pyTruthy : JsonVal → Bool
  | .null => false
  | .bool b => b
  | .num q => q != 0
  | .str s => s != ""
  | .arr .nil => false
  | .arr (.cons _ _) => true
  | .obj .nil => false
  | .obj (.cons _ _ _) => true

/-- Is this an ASCII digit. -/
def isDigitChar (c : Char) : Bool := 48 ≤ c.toNat && c.toNat ≤ 57

/-- Decimal digits to a natural number. -/
def digitsToNat (ds : List Char) : Nat :=
  ds.foldl (fun a c => a * 10 + (c.toNat - 48)) 0

/-- Escape a string for JSON output (quote and backslash only; enough for
the strings this pipeline produces). -/
def escapeJsonString (s : String) : String :=
  s.data.foldl
    (fun acc c =>
      if c == Char.ofNat 34 then acc ++ "\\\""
      else if c == Char.ofNat 92 then acc ++ "\\\\"
      else acc.push c)
    ("")

/-- Render a rational: integers plainly, the rest as a fraction.  This
stands in for Python float formatting, which only feeds prompt text and
fallback strings, never the score arithmetic. -/
def ratDumps (q : ℚ) : String :=
  if q.den = 1 then toString q.num else toString q.num ++ "/" ++ toString q.den

mutual

/-- Serialize a JSON value (models json.dumps closely enough for the places
the source uses it: fallback summary text). -/
def jsonDumps : JsonVal → String
  | .null => "null"
  | .bool true => "true"
  | .bool false => "false"
  | .num q => ratDumps q
  | .str s => "\"" ++ escapeJsonString s ++ "\""
  | .arr xs => "[" ++ jsonDumpsArr xs ++ "]"
  | .obj kvs =>
      String.singleton lbrace ++ jsonDumpsObj kvs ++ String.singleton rbrace

/-- Serialize array elements, comma separated. -/
def jsonDumpsArr : JsonArr → String
  | .nil => ""
  | .cons v .nil => jsonDumps v
  | .cons v tl => jsonDumps v ++ ", " ++ jsonDumpsArr tl

/-- Serialize object members, comma separated. -/
def jsonDumpsObj : JsonObj → String
  | .nil => ""
  | .cons k v .nil => "\"" ++ escapeJsonString k ++ "\": " ++ jsonDumps v
  | .cons k v tl =>
      "\"" ++ escapeJsonString k ++ "\": " ++ jsonDumps v ++ ", " ++
        jsonDumpsObj tl

end

/-- Python str() of a JSON value.  Strings are themselves; scalars render as
Python does; containers use the JSON rendering (an approximation of repr,
harmless because every use is followed by an exact-membership guard or only
feeds prompt text). -/
def pyStr : JsonVal → String
  | .null => "None"
  | .bool true => "True"
  | .bool false => "False"
  | .num q => ratDumps q
  | .str s => s
  | .arr xs => jsonDumps (.arr xs)
  | .obj kvs => jsonDumps (.obj kvs)

/-- Python float(string) on the sign/digits/fraction forms (exponent and
inf/nan forms omitted; they never help a malformed score become valid). -/
def strToRat? (s : String) : Option ℚ :=
  let t := s.trim.data
  let sgnAndBody : ℚ × List Char :=
    match t with
    | c :: rest =>
        if c == '-' then (-1, rest)
        else if c == '+' then (1, rest) else (1, t)
    | [] => (1, t)
  let sgn := sgnAndBody.1
  let body := sgnAndBody.2
  let ip := body.takeWhile isDigitChar
  let rest1 := body.dropWhile isDigitChar
  match rest1 with
  | [] => if ip.isEmpty then none else some (sgn * (digitsToNat ip : ℚ))
  | c :: rest2 =>
      if c == '.' then
        let fp := rest2.takeWhile isDigitChar
        let rest3 := rest2.dropWhile isDigitChar
        if rest3.isEmpty && !(ip.isEmpty && fp.isEmpty) then
          some (sgn * ((digitsToNat ip : ℚ) +
            (digitsToNat fp : ℚ) / ((10 : ℚ) ^ fp.length)))
        else none
      else none

/-- Python float() applied to a JSON value; none models an exception. -/
def pyFloat? : JsonVal → Option ℚ
  | .num q => some q
  | .bool b => some (if b then 1 else 0)
  | .str s => strToRat? s
  | _ => none

/-- Truncation toward zero, the behaviour of Python int() on a float. -/
def ratTrunc (q : ℚ) : ℤ := if 0 ≤ q then q.floor else -((-q).floor)

/-- Python int(string): optional sign then digits only. -/
def strToInt? (s : String) : Option ℤ :=
  let t := s.trim.data
  let sgnAndBody : ℤ × List Char :=
    match t with
    | c :: rest =>
        if c == '-' then (-1, rest)
        else if c == '+' then (1, rest) else (1, t)
    | [] => (1, t)
  let body := sgnAndBody.2
  if body.isEmpty || !(body.all isDigitChar) then none
  else some (sgnAndBody.1 * (digitsToNat body : ℤ))

/-- Python int() applied to a JSON value; none models an exception. -/
def pyInt? : JsonVal → Option ℤ
  | .num q => some (ratTrunc q)
  | .bool b => some (if b then 1 else 0)
  | .str s => strToInt? s
  | _ => none

/-- Skip JSON whitespace. -/
def skipWs : List Char → List Char
  | c :: rest =>
      if c == ' ' || c == '\t' || c == '\n' || c == '\r' then skipWs rest
      else c :: rest
  | [] => []

/-- Drop an expected literal from the front of the input. -/
def dropLit? : List Char → List Char → Option (List Char)
  | cs, [] => some cs
  | c :: rest, l :: ls => if c == l then dropLit? rest ls else none
  | [], _ :: _ => none

/-- Parse four hex digits. -/
def parseHex4 (cs : List Char) : Option (Nat × List Char) :=
  let hexVal? (c : Char) : Option Nat :=
    if isDigitChar c then some (c.toNat - 48)
    else if 97 ≤ c.toNat && c.toNat ≤ 102 then some (c.toNat - 87)
    else if 65 ≤ c.toNat && c.toNat ≤ 70 then some (c.toNat - 55)
    else none
  match cs with
  | a :: b :: c :: d :: rest =>
      match hexVal? a, hexVal? b, hexVal? c, hexVal? d with
      | some x, some y, some z, some w =>
          some (((x * 16 + y) * 16 + z) * 16 + w, rest)
      | _, _, _, _ => none
  | _ => none

/-- Parse the body of a JSON string literal (the opening quote already
consumed), returning the decoded string and the rest of the input. -/
def parseJString : Nat → List Char → Option (String × List Char)
  | 0, _ => none
  | fuel + 1, cs =>
      match cs with
      | [] => none
      | c :: rest =>
          if c == Char.ofNat 34 then some ("", rest)
          else if c == Char.ofNat 92 then
            match rest with
            | [] => none
            | e :: rest2 =>
                let cont (ch : Char) (rs : List Char) :=
                  (parseJString fuel rs).map
                    (fun p => (String.singleton ch ++ p.1, p.2))
                if e == Char.ofNat 34 then cont (Char.ofNat 34) rest2
                else if e == Char.ofNat 92 then cont (Char.ofNat 92) rest2
                else if e == '/' then cont '/' rest2
                else if e == 'n' then cont '\n' rest2
                else if e == 't' then cont '\t' rest2
                else if e == 'r' then cont '\r' rest2
                else if e == 'b' then cont (Char.ofNat 8) rest2
                else if e == 'f' then cont (Char.ofNat 12) rest2
                else if e == 'u' then
                  match parseHex4 rest2 with
                  | some (n, rest3) => cont (Char.ofNat n) rest3
                  | none => none
                else none
          else
            (parseJString fuel rest).map
              (fun p => (String.singleton c ++ p.1, p.2))

/-- Parse the fractional part of a JSON number (may be absent). -/
def parseFrac (cs : List Char) : Option (ℚ × List Char) :=
  match cs with
  | c :: rest =>
      if c == '.' then
        let fd := rest.takeWhile isDigitChar
        if fd.isEmpty then none
        else
          some ((digitsToNat fd : ℚ) / ((10 : ℚ) ^ fd.length),
            rest.dropWhile isDigitChar)
      else some (0, cs)
  | [] => some (0, cs)

/-- Parse the exponent part of a JSON number as a multiplier (may be
absent). -/
def parseExp (cs : List Char) : Option (ℚ × List Char) :=
  match cs with
  | c :: rest =>
      if c == 'e' || c == 'E' then
        let sgnAndBody : Bool × List Char :=
          match rest with
          | d :: r2 =>
              if d == '-' then (false, r2)
              else if d == '+' then (true, r2) else (true, rest)
          | [] => (true, rest)
        let ed := sgnAndBody.2.takeWhile isDigitChar
        if ed.isEmpty then none
        else
          let m : ℚ := (10 : ℚ) ^ digitsToNat ed
          some (if sgnAndBody.1 then m else m⁻¹,
            sgnAndBody.2.dropWhile isDigitChar)
      else some (1, cs)
  | [] => some (1, cs)

/-- Parse a JSON number. -/
def parseJNumber (cs : List Char) : Option (ℚ × List Char) :=
  let sgnAndBody : ℚ × List Char :=
    match cs with
    | c :: rest => if c == '-' then (-1, rest) else (1, cs)
    | [] => (1, cs)
  let body := sgnAndBody.2
  let ip := body.takeWhile isDigitChar
  if ip.isEmpty then none
  else
    match parseFrac (body.dropWhile isDigitChar) with
    | none => none
    | some (fv, rest2) =>
        match parseExp rest2 with
        | none => none
        | some (m, rest3) =>
            some (sgnAndBody.1 * ((digitsToNat ip : ℚ) + fv) * m, rest3)

mutual

/-- Parse one JSON value, fuel-recursive. -/
def parseJValue : Nat → List Char → Option (JsonVal × List Char)
  | 0, _ => none
  | fuel + 1, cs0 =>
      let cs := skipWs cs0
      match cs with
      | [] => none
      | c :: rest =>
          if c == Char.ofNat 34 then
            (parseJString (rest.length + 1) rest).map
              (fun p => (JsonVal.str p.1, p.2))
          else if c == lbrace then parseJObj fuel rest
          else if c == '[' then parseJArr fuel rest
          else if c == 'n' then
            (dropLit? cs (['n', 'u', 'l', 'l'])).map
              (fun r => (JsonVal.null, r))
          else if c == 't' then
            (dropLit? cs (['t', 'r', 'u', 'e'])).map
              (fun r => (JsonVal.bool true, r))
          else if c == 'f' then
            (dropLit? cs (['f', 'a', 'l', 's', 'e'])).map
              (fun r => (JsonVal.bool false, r))
          else
            (parseJNumber cs).map (fun p => (JsonVal.num p.1, p.2))

/-- Parse a JSON array after the opening bracket. -/
def parseJArr : Nat → List Char → Option (JsonVal × List Char)
  | 0, _ => none
  | fuel + 1, cs0 =>
      let cs := skipWs cs0
      match cs with
      | [] => none
      | c :: rest =>
          if c == ']' then some (JsonVal.arr .nil, rest)
          else
            (parseJArrItems fuel cs).map (fun p => (JsonVal.arr p.1, p.2))

/-- Parse comma-separated array items up to the closing bracket. -/
def parseJArrItems : Nat → List Char → Option (JsonArr × List Char)
  | 0, _ => none
  | fuel + 1, cs =>
      match parseJValue fuel cs with
      | none => none
      | some (v, rest) =>
          match skipWs rest with
          | [] => none
          | c :: rest2 =>
              if c == ',' then
                (parseJArrItems fuel rest2).map
                  (fun p => (JsonArr.cons v p.1, p.2))
              else if c == ']' then some (JsonArr.cons v .nil, rest2)
              else none

/-- Parse a JSON object after the opening brace. -/
def parseJObj : Nat → List Char → Option (JsonVal × List Char)
  | 0, _ => none
  | fuel + 1, cs0 =>
      let cs := skipWs cs0
      match cs with
      | [] => none
      | c :: rest =>
          if c == rbrace then some (JsonVal.obj .nil, rest)
          else
            (parseJObjItems fuel cs).map (fun p => (JsonVal.obj p.1, p.2))

/-- Parse comma-separated key/value members up to the closing brace,
with dict-update semantics for duplicate keys. -/
def parseJObjItems : Nat → List Char → Option (JsonObj × List Char)
  | 0, _ => none
  | fuel + 1, cs =>
      match skipWs cs with
      | [] => none
      | c :: rest =>
          if c == Char.ofNat 34 then
            match parseJString (rest.length + 1) rest with
            | none => none
            | some (k, rest2) =>
                match skipWs rest2 with
                | [] => none
                | c2 :: rest3 =>
                    if c2 == ':' then
                      match parseJValue fuel rest3 with
                      | none => none
                      | some (v, rest4) =>
                          match skipWs rest4 with
                          | [] => none
                          | c3 :: rest5 =>
                              if c3 == ',' then
                                (parseJObjItems fuel rest5).map
                                  (fun p =>
                                    (JsonObj.cons k ((p.1.lookup? k).getD v)
                                      (p.1.erase k), p.2))
                              else if c3 == rbrace then
                                some (JsonObj.cons k v .nil, rest5)
                              else none
                    else none
          else none

end

/-- Python json.loads: parse one JSON document, reject trailing garbage. -/
def pyJsonLoads (s : String) : Option JsonVal :=
  match parseJValue (4 * s.length + 8) s.data with
  | some (v, rest) => if (skipWs rest).isEmpty then some v else none
  | none => none

/-- One extracted factual claim (pydantic model Claim). -/
structure Claim where
  claim_id : String
  text : String
  claim_type : String
  tokens : ℤ
  extracted_entities : List String
  char_span : List ℤ
deriving DecidableEq

/-- One piece of web evidence (pydantic model EvidenceSnippet). -/
structure EvidenceSnippet where
  source : String
  url : Option String
  title : Option String
  snippet : String
deriving DecidableEq

/-- The verifier's entailment judgment (pydantic model ClaimVerification). -/
structure ClaimVerification where
  claim_id : String
  label : String
  entailment_score : ℚ
  extracted_facts : JsonVal
  explanation : String
  evidence_used : List EvidenceSnippet

/-- The aggregated per-claim verdict (pydantic model ClaimVerdict). -/
structure ClaimVerdict where
  claim_id : String
  claim_text : String
  label : String
  score : ℚ
  confidence : ℚ
  verdict : String
  rationale : String
  evidence_used : List EvidenceSnippet
deriving DecidableEq

/-- The inbound request (pydantic model VerifyRequest; the transport-level
defaulting of language to "en" has already happened). -/
structure VerifyRequest where
  text : String
  user_id : Option String
  language : String
deriving DecidableEq

/-- The response of the /verify route (pydantic model VerifyResponse). -/
structure VerifyResponse where
  job_id : String
  run_id : String
  created_at : String
  original_text : String
  claims : List Claim
  verifications : List ClaimVerdict
  overall_summary : String
deriving DecidableEq

/-- Failures that abort a run: transport/HTTP failure of the chat call
(HTTPException 502), a chat response with no parseable JSON (HTTPException
500 whose detail carries the raw text), or an uncaught Python
attribute/type/validation error. -/
inductive PipeError where
  | serviceError (detail : String) : PipeError
  | malformedResponse (raw : String) : PipeError
  | typeError (site : String) : PipeError
deriving DecidableEq

/-- Failures of the search round trip; all of them are caught locally. -/
inductive SearchError where
  | network (msg : String) : SearchError
  | httpStatus (code : ℕ) : SearchError
  | parse (msg : String) : SearchError
deriving DecidableEq

/-- The external services: the chat endpoint (_call_grok_api), the stdlib
JSON parser, and the DDG search round trip keyed by the query string. -/
structure Oracles where
  rawChat : String → String → Except PipeError String
  jsonLoads : String → Option JsonVal
  search : String → Except SearchError JsonVal

/-- Pydantic coercion of a JSON value into a str field: strings stay,
scalars render, containers and null are rejected. -/
def pyStrCoerce? : JsonVal → Option String
  | .str s => some s
  | .num q => some (ratDumps q)
  | .bool b => some (pyStr (.bool b))
  | _ => none

/-- Pydantic coercion into an Optional str field. -/
def pyOptStrCoerce? : JsonVal → Option (Option String)
  | .null => some none
  | v => (pyStrCoerce? v).map some

/-- Pydantic coercion of a JSON value into a List str field. -/
def asStrList? : JsonVal → Option (List String)
  | .arr xs => (xs.toList).mapM pyStrCoerce?
  | _ => none

/-- Pydantic coercion of a JSON value into a List int field. -/
def asIntList? : JsonVal → Option (List ℤ)
  | .arr xs => (xs.toList).mapM pyInt?
  | _ => none

/-- Python dict .get with a default; a non-dict receiver raises
(AttributeError), which aborts the run. -/
def pyDictGetD (data : JsonVal) (k : String) (dflt : JsonVal) :
    Except PipeError JsonVal :=
  match data with
  | .obj kvs => .ok ((kvs.lookup? k).getD dflt)
  | _ => .error (.typeError (k))

/-- The fixed instruction _chat_json appends to every system prompt. -/
def jsonInstruction : String :=
  "IMPORTANT: Return ONLY valid JSON (no explanatory text) as the assistant response. The JSON must be parseable by a JSON parser."

/-- The substring of the raw text from the first left brace to the last
right brace inclusive (raw_text.index / raw_text.rindex / slice); none when
either brace is missing (str.index raising ValueError). -/
def firstLastBraceSub (raw : String) : Option String :=
  match raw.data.findIdx? (· == lbrace), raw.data.reverse.findIdx? (· == rbrace) with
  | some i, some jr =>
      let j := raw.data.length - 1 - jr
      some (String.mk ((raw.data.take (j + 1)).drop i))
  | _, _ => none

/-- The JSON-extraction tail of _chat_json: parse the raw text directly,
else parse the first-brace-to-last-brace substring, else fail with an error
carrying the raw offending text. -/
def chatJsonExtract (jsonLoads : String → Option JsonVal) (raw_text : String) :
    Except PipeError JsonVal :=
  match jsonLoads raw_text with
  | some v => .ok v
  | none =>
      match firstLastBraceSub raw_text with
      | some possible =>
          match jsonLoads possible with
          | some v => .ok v
          | none => .error (.malformedResponse raw_text)
      | none => .error (.malformedResponse raw_text)

/-- _chat_json: call the chat endpoint with the JSON instruction appended
to the system prompt, then extract a JSON object from the raw reply. -/
def chatJson (rawChat : String → String → Except PipeError String)
    (jsonLoads : String → Option JsonVal)
    (system_prompt user_prompt : String) : Except PipeError JsonVal :=
  match rawChat (system_prompt ++ "\n\n" ++ jsonInstruction) user_prompt with
  | .error e => .error e
  | .ok raw_text => chatJsonExtract jsonLoads raw_text

/-- System prompt of the claim extractor. -/
def extractSystemPrompt : String :=
  "You are a precise factual claim extraction engine. Extract all discrete factual statements suitable for fact-checking. Return only machine-readable JSON."

/-- User prompt of the claim extractor (the f-string of extract_claims). -/
def extractUserPrompt (text language : String) : String :=
  "\nInput text:\n\"\"\"" ++ text ++
    "\"\"\".\n\nReturn a JSON object with a single key \"claims\", where \"claims\" is a list of objects:\n\x7b\n  \"claim_id\": \"c1\",\n  \"text\": \"<exact claim text>\",\n  \"claim_type\": \"numerical | comparative | categorical | temporal | causal\",\n  \"tokens\": <approximate token count>,\n  \"extracted_entities\": [\"entities, names, dates, quantities\"],\n  \"char_span\": [start_index, end_index]\n\x7d\n\nIf there are no factual claims, return \"claims\": [].\nUse language: " ++
    language ++ ".\n"

/-- The default char_span value [0, 0]. -/
def zeroSpan : JsonVal := .arr (.cons (.num 0) (.cons (.num 0) .nil))

/-- Parse one entry of the extractor's claims list (the body of the
per-entry try block of extract_claims, pydantic validation included);
none models the except branch that skips the entry. -/
def parseClaimEntry (i : ℕ) (c : JsonVal) : Option Claim :=
  match c with
  | .obj kvs => do
      let claim_id ←
        match kvs.lookup? ("claim_id") with
        | some v =>
            if pyTruthy v then pyStrCoerce? v else some ("c" ++ toString i)
        | none => some ("c" ++ toString i)
      let textV ← kvs.lookup? ("text")
      let text ← pyStrCoerce? textV
      let claim_type ←
        pyStrCoerce? ((kvs.lookup? ("claim_type")).getD (.str ("categorical")))
      let tokens ← pyInt? ((kvs.lookup? ("tokens")).getD (.num 10))
      let eeV0 := (kvs.lookup? ("extracted_entities")).getD (.arr .nil)
      let eeV := if pyTruthy eeV0 then eeV0 else .arr .nil
      let extracted_entities ← asStrList? eeV
      let csV0 := (kvs.lookup? ("char_span")).getD zeroSpan
      let csV := if pyTruthy csV0 then csV0 else zeroSpan
      let char_span ← asIntList? csV
      some { claim_id, text, claim_type, tokens, extracted_entities,
             char_span }
  | _ => none

/-- Python iteration over the claims list; a str iterates its characters,
a dict its keys, and the rest raise TypeError. -/
def claimEntriesOf : JsonVal → Except PipeError (List JsonVal)
  | .arr xs => .ok xs.toList
  | .str s => .ok (s.data.map (fun ch => JsonVal.str (String.singleton ch)))
  | .obj kvs => .ok (kvs.toList.map (fun kv => JsonVal.str kv.1))
  | _ => .error (.typeError ("enumerate"))

/-- extract_claims applied to the result of its _chat_json call: read the
claims list and keep every well-formed entry, 1-based indices for the
synthesized claim ids. -/
def extract_claims (chatResult : Except PipeError JsonVal) :
    Except PipeError (List Claim) :=
  match chatResult with
  | .error e => .error e
  | .ok data => do
      let rawClaims ← pyDictGetD data ("claims") (.arr .nil)
      let entries ← claimEntriesOf rawClaims
      .ok ((List.enumFrom 1 entries).filterMap
        (fun p => parseClaimEntry p.1 p.2))

/-- Build the snippet from the top-level abstract of a DDG response, when
present and truthy (pydantic validation of the snippet fields included). -/
def abstractSnippets (kvs : JsonObj) : Except PipeError (List EvidenceSnippet) :=
  let av := (kvs.lookup? ("Abstract")).getD .null
  if pyTruthy av then
    match pyOptStrCoerce? ((kvs.lookup? ("Heading")).getD .null),
        pyOptStrCoerce? ((kvs.lookup? ("AbstractURL")).getD .null),
        pyStrCoerce? av with
    | some t, some u, some sn =>
        .ok [{ source := "web:ddg", title := t, url := u, snippet := sn }]
    | _, _, _ => .error (.typeError ("EvidenceSnippet"))
  else .ok []

/-- Build the snippet from one related-topic entry: only dict entries with
a truthy Text field produce a snippet. -/
def topicSnippets (t : JsonVal) : Except PipeError (List EvidenceSnippet) :=
  match t with
  | .obj kvs =>
      let textV := (kvs.lookup? ("Text")).getD .null
      if pyTruthy textV then
        match pyOptStrCoerce? ((kvs.lookup? ("FirstURL")).getD .null),
            pyStrCoerce? textV with
        | some u, some sn =>
            .ok [{ source := "web:ddg", title := u, url := u, snippet := sn }]
        | _, _ => .error (.typeError ("EvidenceSnippet"))
      else .ok []
  | _ => .ok []

/-- Python slicing list[:3]; a str slices to its first characters, other
receivers raise TypeError. -/
def topicsSlice : JsonVal → Except PipeError (List JsonVal)
  | .arr xs => .ok (xs.toList.take 3)
  | .str s =>
      .ok ((s.data.take 3).map (fun ch => JsonVal.str (String.singleton ch)))
  | _ => .error (.typeError ("slice"))

/-- retrieve_evidence_for_claim applied to the outcome of its search round
trip: every caught failure (network, HTTP status, JSON parse) degrades to
the empty snippet list; a successful response is mined for the abstract
and up to three related topics. -/
def retrieve_evidence_for_claim (searchResult : Except SearchError JsonVal)
    (claim : Claim) : Except PipeError (List EvidenceSnippet) :=
  match searchResult with
  | .error _ => .ok []
  | .ok data =>
      match data with
      | .obj kvs => do
          let fromAbstract ← abstractSnippets kvs
          let topics ← topicsSlice ((kvs.lookup? ("RelatedTopics")).getD (.arr .nil))
          let fromTopics ← topics.foldlM
            (fun acc t => do
              let s ← topicSnippets t
              pure (acc ++ s)) []
          .ok (fromAbstract ++ fromTopics)
      | _ => .error (.typeError ("Abstract"))

/-- One evidence line of the verifier prompt: 1-based index, title or
empty, snippet, url-or-source tag (Python or-truthiness on title/url). -/
def evidenceLine (i : ℕ) (e : EvidenceSnippet) : String :=
  let titlePart :=
    match e.title with
    | some t => if t != "" then t else ("")
    | none => ""
  let urlPart :=
    match e.url with
    | some u => if u != "" then u else e.source
    | none => e.source
  "[" ++ toString i ++ "] " ++ titlePart ++ " " ++ e.snippet ++
    " (source: " ++ urlPart ++ ")"

/-- The evidence block of the verifier prompt: joined lines, or the
explicit no-evidence substitution when the snippet list is empty. -/
def joined_evidence (evidence : List EvidenceSnippet) : String :=
  match evidence with
  | [] => "NO_EVIDENCE_AVAILABLE"
  | _ =>
      String.intercalate ("\n\n")
        ((List.enumFrom 1 evidence).map (fun p => evidenceLine p.1 p.2))

/-- System prompt of the claim verifier. -/
def verifySystemPrompt : String :=
  "You are a rigorous fact-checking engine using Natural Language Inference (NLI). Given a claim and a collection of evidence snippets, decide whether the evidence SUPPORTS, CONTRADICTS, or is NEUTRAL with respect to the claim. Be conservative: if evidence is incomplete or ambiguous, respond NEUTRAL."

/-- The verifier user prompt up to the evidence block. -/
def verifyPromptPre (c : Claim) : String :=
  "\nClaim:\n\"\"\"" ++ c.text ++ "\"\"\".\n\nEvidence snippets:\n\"\"\""

/-- The verifier user prompt after the evidence block. -/
def verifyPromptPost (language : String) : String :=
  "\"\"\".\n\nReturn a JSON object:\n\x7b\n  \"label\": \"SUPPORT\" | \"CONTRADICT\" | \"NEUTRAL\",\n  \"entailment_score\": <float between 0 and 1>,\n  \"extracted_facts\": \x7b\n      \"numbers\": [...],\n      \"dates\": [...],\n      \"entities\": [...],\n      \"extra\": \"...\"\n  \x7d,\n  \"explanation\": \"Short explanation in " ++
    language ++ ".\"\n\x7d\n"

/-- User prompt of the claim verifier (the f-string of
verify_claim_with_evidence). -/
def verifyUserPrompt (c : Claim) (evidence : List EvidenceSnippet)
    (language : String) : String :=
  verifyPromptPre c ++ joined_evidence evidence ++ verifyPromptPost language

/-- The normalization tail of verify_claim_with_evidence: coerce the label
into the three-valued vocabulary, coerce and clamp the score, default the
facts and explanation, then build the ClaimVerification (pydantic
validation of the built model included). -/
def normalize_verification (claim : Claim) (evidence : List EvidenceSnippet)
    (data : JsonVal) : Except PipeError ClaimVerification :=
  match data with
  | .obj kvs =>
      let labelRaw := (pyStr ((kvs.lookup? ("label")).getD (.str ("NEUTRAL")))).toUpper
      let label :=
        if labelRaw = "SUPPORT" ∨ labelRaw = "CONTRADICT" ∨ labelRaw = "NEUTRAL"
        then labelRaw else ("NEUTRAL")
      let score := (pyFloat? ((kvs.lookup? ("entailment_score")).getD (.num 0))).getD 0
      let efV0 := (kvs.lookup? ("extracted_facts")).getD (.obj .nil)
      let efV := if pyTruthy efV0 then efV0 else .obj .nil
      let explV := (kvs.lookup? ("explanation")).getD (.str (""))
      match efV with
      | .obj _ =>
          match pyStrCoerce? explV with
          | some expl =>
              .ok { claim_id := claim.claim_id,
                    label := label,
                    entailment_score := max 0 (min 1 score),
                    extracted_facts := efV,
                    explanation := expl,
                    evidence_used := evidence }
          | none => .error (.typeError ("explanation"))
      | _ => .error (.typeError ("extracted_facts"))
  | _ => .error (.typeError ("label"))

/-- verify_claim_with_evidence: build the prompt, run _chat_json, then
normalize the reply. -/
def verify_claim_with_evidence (o : Oracles) (claim : Claim)
    (evidence : List EvidenceSnippet) (language : String) :
    Except PipeError ClaimVerification :=
  match chatJson o.rawChat o.jsonLoads verifySystemPrompt
      (verifyUserPrompt claim evidence language) with
  | .error e => .error e
  | .ok data => normalize_verification claim evidence data

/-- aggregate_verdict: the pure mapping from one claim plus its
verification to the final score, confidence and verdict. -/
def aggregate_verdict (claim : Claim) (verification : ClaimVerification) :
    ClaimVerdict :=
  let S : ℚ := if verification.label = "SUPPORT" then verification.entailment_score else 0
  let C : ℚ := if verification.label = "CONTRADICT" then verification.entailment_score else 0
  let truth_score : ℚ := max 0 (min 1 (S - C))
  let confidence : ℚ := max (1 / 10) S
  let verdict : String :=
    if S ≥ 7 / 10 ∧ C < 3 / 10 then ("VERIFIED")
    else if S ≥ 35 / 100 ∧ C ≥ 3 / 10 then ("PARTIALLY_SUPPORTED")
    else if S = 0 ∧ C = 0 then ("UNVERIFIED")
    else ("UNVERIFIED")
  { claim_id := claim.claim_id,
    claim_text := claim.text,
    label := verification.label,
    score := truth_score,
    confidence := confidence,
    verdict := verdict,
    rationale := verification.explanation,
    evidence_used := verification.evidence_used }

/-- Two-decimal rendering of a score for the summary bullets (stands in
for Python %.2f formatting; only feeds prompt text). -/
def fmt2 (q : ℚ) : String :=
  let m : ℤ := (q * 100 + 1 / 2).floor
  let ip := m / 100
  let fp := (m % 100).natAbs
  toString ip ++ "." ++ (if fp < 10 then ("0") else ("")) ++ toString fp

/-- One bullet of the summary prompt. -/
def summaryBullet (v : ClaimVerdict) : String :=
  "- Claim: " ++ v.claim_text ++ "\n" ++ "  Verdict: " ++ v.verdict ++
    " (score=" ++ fmt2 v.score ++ ", confidence=" ++ fmt2 v.confidence ++
    ")\n" ++ "  Explanation: " ++ v.rationale

/-- System prompt of the summary generator. -/
def summarySystemPrompt : String :=
  "You are an AI analyst summarising a fact-checking run for a human reader. You receive a list of claim verdicts. Produce a short, clear overview."

/-- User prompt of the summary generator. -/
def summaryUserPrompt (verdicts : List ClaimVerdict) (language : String) :
    String :=
  "\nLanguage: " ++ language ++ "\n\nClaim verdicts:\n" ++
    String.intercalate ("\n") (verdicts.map summaryBullet) ++
    "\n\nWrite a short executive summary (2–4 sentences).\n"

/-- summarize_overall applied to the result of its _chat_json call: pick
the first truthy of summary/text/overall, else serialize the whole reply. -/
def summarize_overall (chatResult : Except PipeError JsonVal) :
    Except PipeError String :=
  match chatResult with
  | .error e => .error e
  | .ok data =>
      match data with
      | .obj kvs =>
          let pick (k : String) : Option JsonVal :=
            match kvs.lookup? k with
            | some v => if pyTruthy v then some v else none
            | none => none
          match ((pick ("summary")).orElse
              (fun _ => pick ("text"))).orElse (fun _ => pick ("overall")) with
          | some v =>
              match pyStrCoerce? v with
              | some s => .ok s
              | none => .error (.typeError ("overall_summary"))
          | none => .ok (jsonDumps data)
      | _ => .error (.typeError ("summary"))

/-- The calls the orchestrator makes to its downstream components. -/
inductive CallEvent where
  | extractorCall : CallEvent
  | retrieverCall (query : String) : CallEvent
  | verifierCall (claim_id : String) : CallEvent
  | summarizerCall : CallEvent
deriving DecidableEq

/-- Claim extraction step of the orchestrator. -/
def runExtract (o : Oracles) (text language : String) :
    Except PipeError (List Claim) :=
  extract_claims
    (chatJson o.rawChat o.jsonLoads extractSystemPrompt
      (extractUserPrompt text language))

/-- The fixed summary of the zero-claims early exit. -/
def noClaimsSummary : String := "No factual claims were detected in the input."

/-- The per-claim loop of the /verify route: retrieve evidence, verify, and
aggregate, strictly in sequence, recording which components were invoked. -/
def processClaims (o : Oracles) (language : String) :
    List Claim → Except PipeError (List ClaimVerdict) × List CallEvent
  | [] => (.ok [], [])
  | claim :: rest =>
      match retrieve_evidence_for_claim (o.search claim.text) claim with
      | .error e => (.error e, [.retrieverCall claim.text])
      | .ok evidence =>
          match verify_claim_with_evidence o claim evidence language with
          | .error e =>
              (.error e, [.retrieverCall claim.text, .verifierCall claim.claim_id])
          | .ok verification =>
              let verdict := aggregate_verdict claim verification
              let res := processClaims o language rest
              ((res.1).map (fun vs => verdict :: vs),
                .retrieverCall claim.text :: .verifierCall claim.claim_id :: res.2)

/-- The /verify route: extract claims; on zero claims return the fixed
early-exit response; otherwise run the per-claim loop and one summary call.
The request-scoped identifiers and timestamp are inputs (uuid4 and utcnow
in the source). -/
def verifyRun (o : Oracles) (job_id run_id created_at : String)
    (req : VerifyRequest) : Except PipeError VerifyResponse × List CallEvent :=
  match runExtract o req.text req.language with
  | .error e => (.error e, [.extractorCall])
  | .ok [] =>
      (.ok { job_id, run_id, created_at, original_text := req.text,
             claims := [], verifications := [],
             overall_summary := noClaimsSummary },
        [.extractorCall])
  | .ok (c :: cs) =>
      match processClaims o req.language (c :: cs) with
      | (.error e, evs) => (.error e, .extractorCall :: evs)
      | (.ok verdicts, evs) =>
          match summarize_overall
              (chatJson o.rawChat o.jsonLoads summarySystemPrompt
                (summaryUserPrompt verdicts req.language)) with
          | .error e => (.error e, .extractorCall :: evs ++ [.summarizerCall])
          | .ok overall =>
              (.ok { job_id, run_id, created_at, original_text := req.text,
                     claims := c :: cs, verifications := verdicts,
                     overall_summary := overall },
                .extractorCall :: evs ++ [.summarizerCall])

/-- A concrete claim used to instantiate the aggregation theorems. -/
def testClaim : Claim :=
  { claim_id := "c1", text := "Paris is the capital of France",
    claim_type := "categorical", tokens := 7, extracted_entities := [],
    char_span := [0, 0] }

/-- A SUPPORT verification with entailment score 1/2. -/
def supportHalf : ClaimVerification :=
  { claim_id := "c1", label := "SUPPORT", entailment_score := 1 / 2,
    extracted_facts := .obj .nil, explanation := "supported",
    evidence_used := [] }

/-- A CONTRADICT verification with entailment score 9/10. -/
def contradictNine : ClaimVerification :=
  { claim_id := "c1", label := "CONTRADICT", entailment_score := 9 / 10,
    extracted_facts := .obj .nil, explanation := "contradicted",
    evidence_used := [] }

/-- A NEUTRAL verification with entailment score 7/10. -/
def neutralSeven : ClaimVerification :=
  { claim_id := "c1", label := "NEUTRAL", entailment_score := 7 / 10,
    extracted_facts := .obj .nil, explanation := "neutral",
    evidence_used := [] }

/-- Did the verifier step succeed. -/
def verificationOk : Except PipeError ClaimVerification → Bool
  | .ok _ => true
  | .error _ => false

/-- The label of a successful verifier step (empty on failure). -/
def verificationLabel : Except PipeError ClaimVerification → String
  | .ok v => v.label
  | .error _ => ""

/-- The score of a successful verifier step (zero on failure). -/
def verificationScore : Except PipeError ClaimVerification → ℚ
  | .ok v => v.entailment_score
  | .error _ => 0

/-- A value that pydantic accepts for the extracted_facts dict field after
the or-default guard: a dict, or anything falsy (replaced by the empty
dict). -/
def isDictLike : JsonVal → Bool
  | .obj _ => true
  | v => !(pyTruthy v)

/-- A verifier reply whose extracted_facts value is a truthy non-dict. -/
def badFactsObj : JsonObj :=
  JsonObj.ofList [("label", .str ("SUPPORT")), ("entailment_score", .num (9 / 10)),
    ("extracted_facts", .str ("no structured facts"))]

/-- A verifier reply whose explanation value is a list, which no str
field accepts. -/
def badExplObj : JsonObj :=
  JsonObj.ofList [("label", .str ("SUPPORT")), ("entailment_score", .num (9 / 10)),
    ("explanation", .arr (.cons (.str ("first")) .nil))]

/-- A verifier reply with an unrecognized label and a non-numeric score. -/
def messyVerifierReply : JsonObj :=
  JsonObj.ofList [("label", .str ("kinda-true")),
    ("entailment_score", .str ("not-a-number"))]

/-- The malformed-JSON scenario raw text of the spec. -/
def sureExample : String :=
  "Sure! \x7b\"label\":\"SUPPORT\",\"entailment_score\":0.9\x7d"

/-- The brace-delimited substring of sureExample. -/
def sureSub : String :=
  "\x7b\"label\":\"SUPPORT\",\"entailment_score\":0.9\x7d"

/-- What json.loads makes of that substring. -/
def sureParsed : JsonVal :=
  .obj (.cons ("label") (.str ("SUPPORT"))
    (.cons ("entailment_score") (.num (9 / 10)) .nil))

/-- Oracles whose chat endpoint answers with unparseable prose. -/
def cannotComplyOracles : Oracles :=
  { rawChat := fun _ _ => .ok ("I cannot comply."),
    jsonLoads := pyJsonLoads,
    search := fun _ => .error (.network ("unused")) }

/-- A request used with the unparseable-chat oracles. -/
def anyReq : VerifyRequest :=
  { text := "The moon is made of cheese", user_id := none, language := "en" }

/-- Oracles whose chat endpoint reports zero claims. -/
def zeroClaimsOracles : Oracles :=
  { rawChat := fun _ _ => .ok ("\x7b\"claims\": []\x7d"),
    jsonLoads := pyJsonLoads,
    search := fun _ => .error (.network ("unused")) }

/-- The zero-claims scenario request of the spec. -/
def zeroReq : VerifyRequest :=
  { text := "The sky is blue today in my opinion", user_id := none,
    language := "en" }

/-- A chat endpoint for a one-claim end-to-end run, keyed on the system
prompt of the calling component. -/
def demoRawChat : String → String → Except PipeError String := fun system _ =>
  if system = extractSystemPrompt ++ "\n\n" ++ jsonInstruction then
    .ok ("\x7b\"claims\": [\x7b\"text\": \"Paris is the capital of France\"\x7d]\x7d")
  else if system = verifySystemPrompt ++ "\n\n" ++ jsonInstruction then
    .ok ("\x7b\"label\": \"SUPPORT\", \"entailment_score\": 0.9, \"extracted_facts\": \x7b\x7d, \"explanation\": \"ok\"\x7d")
  else .ok ("\x7b\"summary\": \"All good.\"\x7d")

/-- Oracles for the one-claim end-to-end run (search offline, so the claim
is verified with empty evidence). -/
def demoOracles : Oracles :=
  { rawChat := demoRawChat, jsonLoads := pyJsonLoads,
    search := fun _ => .error (.parse ("offline")) }

/-- The one-claim request. -/
def demoReq : VerifyRequest :=
  { text := "Paris is the capital of France", user_id := none, language := "en" }

/-- The one-claim end-to-end run. -/
def demoRun := verifyRun demoOracles ("job-d") ("run-d") ("t0") demoReq

/-- Fallback response used only to destructure demoRun. -/
def fallbackResp : VerifyResponse :=
  { job_id := "", run_id := "", created_at := "", original_text := "",
    claims := [], verifications := [], overall_summary := "" }

/-- The response of the one-claim end-to-end run. -/
def demoResp : VerifyResponse :=
  match demoRun.1 with
  | .ok r => r
  | .error _ => fallbackResp

/-- Helper: the SUPPORT branch of the aggregation policy. -/
theorem support_policy_aux (claim : Claim) (v : ClaimVerification)
    (hl : v.label = "SUPPORT") (h0 : 0 ≤ v.entailment_score)
    (h1 : v.entailment_score ≤ 1) :
    (aggregate_verdict claim v).score = v.entailment_score ∧
    (aggregate_verdict claim v).confidence = max (1 / 10) v.entailment_score ∧
    (aggregate_verdict claim v).verdict =
      (if v.entailment_score ≥ 7 / 10 then ("VERIFIED") else ("UNVERIFIED")) := by
  unfold aggregate_verdict
  rw [hl]
  have hSC : ¬(("SUPPORT" : String) = "CONTRADICT") := by simp
  simp only [if_neg hSC]
  norm_num
  rw [inf_eq_right.mpr h1]
  exact sup_eq_right.mpr h0

/-- Helper: the CONTRADICT branch of the aggregation policy. -/
theorem contradict_policy_aux (claim : Claim) (v : ClaimVerification)
    (hl : v.label = "CONTRADICT") (h0 : 0 ≤ v.entailment_score)
    (h1 : v.entailment_score ≤ 1) :
    (aggregate_verdict claim v).score = 0 ∧
    (aggregate_verdict claim v).confidence = 1 / 10 ∧
    (aggregate_verdict claim v).verdict = "UNVERIFIED" := by
  unfold aggregate_verdict
  rw [hl]
  have hCS : ¬(("CONTRADICT" : String) = "SUPPORT") := by simp
  simp only [if_neg hCS]
  norm_num
  exact h0

/-- Helper: the NEUTRAL branch of the aggregation policy. -/
theorem neutral_policy_aux (claim : Claim) (v : ClaimVerification)
    (hl : v.label = "NEUTRAL") :
    (aggregate_verdict claim v).confidence = 1 / 10 ∧
    (aggregate_verdict claim v).verdict = "UNVERIFIED" := by
  unfold aggregate_verdict
  rw [hl]
  have h1 : ¬(("NEUTRAL" : String) = "SUPPORT") := by simp
  have h2 : ¬(("NEUTRAL" : String) = "CONTRADICT") := by simp
  simp only [if_neg h1, if_neg h2]
  norm_num

/-- C1 (amended): for a SUPPORT verification with score s in [0,1],
aggregate_verdict returns score = s, confidence = max(0.1, s) — not
max(0.8, s) — and verdict VERIFIED when s ≥ 0.7, else UNVERIFIED — never
the verdict string TRUE. -/
theorem aggregate_support_policy (claim : Claim) (v : ClaimVerification)
    (hl : v.label = "SUPPORT") (h0 : 0 ≤ v.entailment_score)
    (h1 : v.entailment_score ≤ 1) :
    (aggregate_verdict claim v).score = v.entailment_score ∧
    (aggregate_verdict claim v).confidence = max (1 / 10) v.entailment_score ∧
    (aggregate_verdict claim v).verdict =
      (if v.entailment_score ≥ 7 / 10 then ("VERIFIED") else ("UNVERIFIED")) :=
  support_policy_aux claim v hl h0 h1

/-- C1 counterexample: at label SUPPORT and score 1/2 the code does not
return confidence max(0.8, 1/2) = 0.8 with verdict TRUE (it returns
confidence 1/2 and verdict UNVERIFIED). -/
theorem aggregate_support_claim_counterexample :
    ¬((aggregate_verdict testClaim supportHalf).confidence = 8 / 10 ∧
      (aggregate_verdict testClaim supportHalf).verdict = "TRUE") := by
  with_unfolding_all decide

/-- C1 witness: the amended policy at the concrete SUPPORT/1-2 input. -/
theorem aggregate_support_policy_witness :
    (aggregate_verdict testClaim supportHalf).score = supportHalf.entailment_score ∧
    (aggregate_verdict testClaim supportHalf).confidence =
      max (1 / 10) supportHalf.entailment_score ∧
    (aggregate_verdict testClaim supportHalf).verdict =
      (if supportHalf.entailment_score ≥ 7 / 10 then ("VERIFIED") else ("UNVERIFIED")) :=
  aggregate_support_policy testClaim supportHalf rfl
    (by with_unfolding_all decide) (by with_unfolding_all decide)

/-- C2 (amended): for a CONTRADICT verification with score c in [0,1],
aggregate_verdict returns score = 0 as claimed, but confidence = 0.1 —
not max(0.8, c) — and verdict UNVERIFIED — never the verdict string
FALSE. -/
theorem aggregate_contradict_policy (claim : Claim) (v : ClaimVerification)
    (hl : v.label = "CONTRADICT") (h0 : 0 ≤ v.entailment_score)
    (h1 : v.entailment_score ≤ 1) :
    (aggregate_verdict claim v).score = 0 ∧
    (aggregate_verdict claim v).confidence = 1 / 10 ∧
    (aggregate_verdict claim v).verdict = "UNVERIFIED" :=
  contradict_policy_aux claim v hl h0 h1

/-- C2 counterexample: at label CONTRADICT and score 9/10 the code does
not return confidence max(0.8, 9/10) = 9/10 with verdict FALSE (it
returns confidence 1/10 and verdict UNVERIFIED). -/
theorem aggregate_contradict_claim_counterexample :
    ¬((aggregate_verdict testClaim contradictNine).confidence = 9 / 10 ∧
      (aggregate_verdict testClaim contradictNine).verdict = "FALSE") := by
  with_unfolding_all decide

/-- C2 witness: the amended policy at the concrete CONTRADICT/9-10
input. -/
theorem aggregate_contradict_policy_witness :
    (aggregate_verdict testClaim contradictNine).score = 0 ∧
    (aggregate_verdict testClaim contradictNine).confidence = 1 / 10 ∧
    (aggregate_verdict testClaim contradictNine).verdict = "UNVERIFIED" :=
  aggregate_contradict_policy testClaim contradictNine rfl
    (by with_unfolding_all decide) (by with_unfolding_all decide)

/-- C4: for a NEUTRAL verification, whatever its entailment score,
aggregate_verdict returns confidence 0.10 and verdict UNVERIFIED. -/
theorem aggregate_neutral_policy (claim : Claim) (v : ClaimVerification)
    (hl : v.label = "NEUTRAL") :
    (aggregate_verdict claim v).confidence = 1 / 10 ∧
    (aggregate_verdict claim v).verdict = "UNVERIFIED" :=
  neutral_policy_aux claim v hl

/-- C4 witness: the NEUTRAL policy at the concrete NEUTRAL/7-10 input. -/
theorem aggregate_neutral_policy_witness :
    (aggregate_verdict testClaim neutralSeven).confidence = 1 / 10 ∧
    (aggregate_verdict testClaim neutralSeven).verdict = "UNVERIFIED" :=
  aggregate_neutral_policy testClaim neutralSeven rfl

/-- C10: for a verification whose label is one of SUPPORT, CONTRADICT or
NEUTRAL with score in [0,1], the support and contradiction components
cannot both be nonzero, so aggregate_verdict never returns the verdict
PARTIALLY_SUPPORTED: the verdict is always VERIFIED or UNVERIFIED. -/
theorem aggregate_never_partially_supported (claim : Claim) (v : ClaimVerification)
    (hl : v.label = "SUPPORT" ∨ v.label = "CONTRADICT" ∨ v.label = "NEUTRAL")
    (h0 : 0 ≤ v.entailment_score) (h1 : v.entailment_score ≤ 1) :
    (aggregate_verdict claim v).verdict ≠ "PARTIALLY_SUPPORTED" ∧
    ((aggregate_verdict claim v).verdict = "VERIFIED" ∨
      (aggregate_verdict claim v).verdict = "UNVERIFIED") := by
  rcases hl with hl | hl | hl
  · have h := support_policy_aux claim v hl h0 h1
    rw [h.2.2]
    rcases le_or_lt (7 / 10 : ℚ) v.entailment_score with h7 | h7
    · rw [if_pos h7]
      exact ⟨by simp, Or.inl rfl⟩
    · rw [if_neg (not_le.mpr h7)]
      exact ⟨by simp, Or.inr rfl⟩
  · have h := contradict_policy_aux claim v hl h0 h1
    rw [h.2.2]
    exact ⟨by simp, Or.inr rfl⟩
  · have h := neutral_policy_aux claim v hl
    rw [h.2]
    exact ⟨by simp, Or.inr rfl⟩

/-- C10 witness: the no-PARTIALLY_SUPPORTED property at the concrete
NEUTRAL/7-10 input. -/
theorem aggregate_never_partially_supported_witness :
    (aggregate_verdict testClaim neutralSeven).verdict ≠ "PARTIALLY_SUPPORTED" ∧
    ((aggregate_verdict testClaim neutralSeven).verdict = "VERIFIED" ∨
      (aggregate_verdict testClaim neutralSeven).verdict = "UNVERIFIED") :=
  aggregate_never_partially_supported testClaim neutralSeven
    (Or.inr (Or.inr rfl)) (by with_unfolding_all decide)
    (by with_unfolding_all decide)

/-- C7: verifying a claim against an empty evidence list substitutes the
explicit no-evidence block NO_EVIDENCE_AVAILABLE (the "no evidence, use
general knowledge" substitution of the spec) into the verifier prompt in
place of the evidence, and that block is never the empty string. -/
theorem verifier_prompt_no_evidence (c : Claim) (language : String) :
    joined_evidence [] = "NO_EVIDENCE_AVAILABLE" ∧
    ("NO_EVIDENCE_AVAILABLE" : String) ≠ "" ∧
    verifyUserPrompt c [] language =
      verifyPromptPre c ++ "NO_EVIDENCE_AVAILABLE" ++ verifyPromptPost language :=
  ⟨rfl, by decide, rfl⟩

/-- C7 witness: the substitution at the concrete Paris claim. -/
theorem verifier_prompt_no_evidence_witness :
    joined_evidence [] = "NO_EVIDENCE_AVAILABLE" ∧
    ("NO_EVIDENCE_AVAILABLE" : String) ≠ "" ∧
    verifyUserPrompt testClaim [] "en" =
      verifyPromptPre testClaim ++ "NO_EVIDENCE_AVAILABLE" ++ verifyPromptPost "en" :=
  verifier_prompt_no_evidence testClaim "en"

/-- C9: the evidence retriever never fails its caller on a failed search
round trip: every network, HTTP-status or parse error of the search call
yields the empty evidence list rather than a propagated error. -/
theorem retrieve_evidence_error_empty (e : SearchError) (claim : Claim) :
    retrieve_evidence_for_claim (.error e) claim = .ok [] := rfl

/-- C9 witness: a concrete network timeout degrades to empty evidence. -/
theorem retrieve_evidence_error_empty_witness :
    retrieve_evidence_for_claim (.error (.network ("timeout"))) testClaim = .ok [] :=
  retrieve_evidence_error_empty (.network ("timeout")) testClaim

/-- Helper: the guarded extracted_facts value always reduces to a dict. -/
theorem dict_like_if (v : JsonVal) (h : isDictLike v = true) :
    ∃ kvs2, (if pyTruthy v = true then v else JsonVal.obj .nil) = JsonVal.obj kvs2 := by
  cases v with
  | null => exact ⟨.nil, by simp [pyTruthy]⟩
  | bool b =>
      cases b with
      | false => exact ⟨.nil, by simp [pyTruthy]⟩
      | true => simp [isDictLike, pyTruthy] at h
  | num q =>
      by_cases hq : q = 0
      · exact ⟨.nil, by simp [pyTruthy, hq]⟩
      · simp [isDictLike, pyTruthy, bne_iff_ne, hq] at h
  | str s =>
      by_cases hs : s = ""
      · exact ⟨.nil, by simp [pyTruthy, hs]⟩
      · simp [isDictLike, pyTruthy, bne_iff_ne, hs] at h
  | arr xs =>
      cases xs with
      | nil => exact ⟨.nil, by simp [pyTruthy]⟩
      | cons a tl => simp [isDictLike, pyTruthy] at h
  | obj kvs2 =>
      by_cases ho : pyTruthy (JsonVal.obj kvs2) = true
      · exact ⟨kvs2, by simp [ho]⟩
      · exact ⟨.nil, by simp [ho]⟩

/-- C8 (amended): on a JSON object reply whose extracted_facts value is a
dict or falsy and whose explanation value coerces to a string, the
normalization never raises and performs exactly the claimed coercions: a
missing label, or one whose str().upper() is not SUPPORT, CONTRADICT or
NEUTRAL, coerces to NEUTRAL; a missing or non-numeric entailment score
coerces to 0.0; a numeric score is clamped to [0,1]; and the resulting
ClaimVerification always has a three-valued label and a score in [0,1].
Pydantic model validation of a truthy non-dict extracted_facts value or a
non-string-coercible explanation value still raises (see the
counterexample), so normalization is not raise-free for every malformed
field value. -/
theorem normalize_label_score_wellformed (claim : Claim)
    (evidence : List EvidenceSnippet) (kvs : JsonObj)
    (hef : isDictLike ((kvs.lookup? ("extracted_facts")).getD (.obj .nil)) = true)
    (hex : (pyStrCoerce? ((kvs.lookup? ("explanation")).getD (.str ("")))).isSome = true) :
    verificationOk (normalize_verification claim evidence (.obj kvs)) = true ∧
    (verificationLabel (normalize_verification claim evidence (.obj kvs)) = "SUPPORT" ∨
      verificationLabel (normalize_verification claim evidence (.obj kvs)) = "CONTRADICT" ∨
      verificationLabel (normalize_verification claim evidence (.obj kvs)) = "NEUTRAL") ∧
    0 ≤ verificationScore (normalize_verification claim evidence (.obj kvs)) ∧
    verificationScore (normalize_verification claim evidence (.obj kvs)) ≤ 1 ∧
    (kvs.lookup? ("label") = none →
      verificationLabel (normalize_verification claim evidence (.obj kvs)) = "NEUTRAL") ∧
    (∀ lv, kvs.lookup? ("label") = some lv →
      ¬((pyStr lv).toUpper = "SUPPORT" ∨ (pyStr lv).toUpper = "CONTRADICT" ∨
          (pyStr lv).toUpper = "NEUTRAL") →
      verificationLabel (normalize_verification claim evidence (.obj kvs)) = "NEUTRAL") ∧
    (kvs.lookup? ("entailment_score") = none →
      verificationScore (normalize_verification claim evidence (.obj kvs)) = 0) ∧
    (∀ sv, kvs.lookup? ("entailment_score") = some sv → pyFloat? sv = none →
      verificationScore (normalize_verification claim evidence (.obj kvs)) = 0) ∧
    (∀ sv q, kvs.lookup? ("entailment_score") = some sv → pyFloat? sv = some q →
      verificationScore (normalize_verification claim evidence (.obj kvs)) =
        max 0 (min 1 q)) := by
  obtain ⟨expl, hsome⟩ := Option.isSome_iff_exists.mp hex
  obtain ⟨kvs2, hif⟩ := dict_like_if _ hef
  have hform : normalize_verification claim evidence (.obj kvs) =
      .ok { claim_id := claim.claim_id,
            label :=
              if (pyStr ((kvs.lookup? ("label")).getD (.str ("NEUTRAL")))).toUpper = "SUPPORT" ∨
                  (pyStr ((kvs.lookup? ("label")).getD (.str ("NEUTRAL")))).toUpper = "CONTRADICT" ∨
                  (pyStr ((kvs.lookup? ("label")).getD (.str ("NEUTRAL")))).toUpper = "NEUTRAL"
              then (pyStr ((kvs.lookup? ("label")).getD (.str ("NEUTRAL")))).toUpper
              else ("NEUTRAL"),
            entailment_score := max 0 (min 1
              ((pyFloat? ((kvs.lookup? ("entailment_score")).getD (.num 0))).getD 0)),
            extracted_facts := JsonVal.obj kvs2,
            explanation := expl,
            evidence_used := evidence } := by
    simp only [normalize_verification]
    rw [hif, hsome]
  rw [hform]
  simp only [verificationOk, verificationLabel, verificationScore]
  refine ⟨by trivial, ?_, ?_, ?_, ?_, ?_, ?_, ?_, ?_⟩
  · by_cases hP : (pyStr ((kvs.lookup? ("label")).getD (.str ("NEUTRAL")))).toUpper = "SUPPORT" ∨
        (pyStr ((kvs.lookup? ("label")).getD (.str ("NEUTRAL")))).toUpper = "CONTRADICT" ∨
        (pyStr ((kvs.lookup? ("label")).getD (.str ("NEUTRAL")))).toUpper = "NEUTRAL"
    · rw [if_pos hP]
      exact hP
    · rw [if_neg hP]
      exact Or.inr (Or.inr rfl)
  · exact le_max_left 0 _
  · exact max_le (by norm_num) (min_le_left 1 _)
  · intro h5
    rw [h5]
    with_unfolding_all decide
  · intro lv h6 hnot
    rw [h6]
    simp only [Option.getD]
    rw [if_neg hnot]
  · intro h7
    rw [h7]
    with_unfolding_all decide
  · intro sv h8 hnum
    rw [h8]
    simp only [Option.getD]
    rw [hnum]
    with_unfolding_all decide
  · intro sv q h9 hq
    rw [h9]
    simp only [Option.getD]
    rw [hq]

/-- C8 counterexample: a truthy non-dict extracted_facts field value, and
likewise a list explanation field value, make the construction of the
ClaimVerification model raise, so normalization is not raise-free for
every malformed field value as claimed; these two failure modes force the
two hypotheses of the amended theorem. -/
theorem normalize_raises_counterexample :
    normalize_verification testClaim [] (.obj badFactsObj) =
      .error (.typeError ("extracted_facts")) ∧
    normalize_verification testClaim [] (.obj badExplObj) =
      .error (.typeError ("explanation")) :=
  ⟨by with_unfolding_all rfl, by with_unfolding_all rfl⟩

/-- C8 witness: the reply with the unrecognized label kinda-true and the
non-numeric score not-a-number normalizes without error, its label coerces
to NEUTRAL and its score coerces to 0. -/
theorem normalize_label_score_wellformed_witness :
    verificationOk (normalize_verification testClaim [] (.obj messyVerifierReply)) = true ∧
    verificationLabel (normalize_verification testClaim [] (.obj messyVerifierReply)) = "NEUTRAL" ∧
    verificationScore (normalize_verification testClaim [] (.obj messyVerifierReply)) = 0 := by
  have h := normalize_label_score_wellformed testClaim [] messyVerifierReply
    (by with_unfolding_all rfl) (by with_unfolding_all rfl)
  exact ⟨h.1,
    h.2.2.2.2.2.1 (.str ("kinda-true")) rfl (by with_unfolding_all decide),
    h.2.2.2.2.2.2.2.1 (.str ("not-a-number")) rfl (by with_unfolding_all rfl)⟩

/-- C6: the JSON-extraction policy of _chat_json over the real JSON
parser: a directly parseable reply is returned as parsed; otherwise the
first-brace-to-last-brace substring is parsed and returned on success; when
neither parse succeeds the call fails with the malformed-response error
carrying the raw offending text.  Concretely, the spec scenarios: the
prose-wrapped reply recovers label SUPPORT with score 0.9 through the
substring, the reply "I cannot comply." fails as malformed, and a whole
run against such a chat endpoint returns that error and no partial
response. -/
theorem chat_json_extraction_policy (raw : String) :
    (∀ v, pyJsonLoads raw = some v → chatJsonExtract pyJsonLoads raw = .ok v) ∧
    (pyJsonLoads raw = none →
      ∀ s v, firstLastBraceSub raw = some s → pyJsonLoads s = some v →
        chatJsonExtract pyJsonLoads raw = .ok v) ∧
    (pyJsonLoads raw = none → firstLastBraceSub raw = none →
      chatJsonExtract pyJsonLoads raw = .error (.malformedResponse raw)) ∧
    (pyJsonLoads raw = none →
      ∀ s, firstLastBraceSub raw = some s → pyJsonLoads s = none →
        chatJsonExtract pyJsonLoads raw = .error (.malformedResponse raw)) ∧
    chatJsonExtract pyJsonLoads sureExample = .ok sureParsed ∧
    chatJsonExtract pyJsonLoads "I cannot comply." =
      .error (.malformedResponse "I cannot comply.") ∧
    verifyRun cannotComplyOracles ("job-m") ("run-m") ("t0") anyReq =
      (.error (.malformedResponse "I cannot comply."), [CallEvent.extractorCall]) := by
  refine ⟨?_, ?_, ?_, ?_, ?_, ?_, ?_⟩
  · intro v hv
    simp [chatJsonExtract, hv]
  · intro h0 s v hs hv
    simp [chatJsonExtract, h0, hs, hv]
  · intro h0 hb
    simp [chatJsonExtract, h0, hb]
  · intro h0 s hs hv
    simp [chatJsonExtract, h0, hs, hv]
  · with_unfolding_all rfl
  · with_unfolding_all rfl
  · with_unfolding_all rfl

/-- C6 witness: the substring-recovery branch applied to the concrete
prose-wrapped reply, with its hypotheses discharged by evaluation. -/
theorem chat_json_extraction_policy_witness :
    chatJsonExtract pyJsonLoads sureExample = .ok sureParsed :=
  (chat_json_extraction_policy sureExample).2.1
    (by with_unfolding_all rfl) sureSub sureParsed
    (by with_unfolding_all rfl) (by with_unfolding_all rfl)

/-- C5: when claim extraction yields zero claims the orchestrator
short-circuits: the run returns empty claims and verifications with the
fixed no-factual-claims summary, and the recorded call trace holds only the
extractor call — the retriever, the verifier and the summary generator are
never invoked. -/
theorem verify_zero_claims (o : Oracles) (job_id run_id created_at : String)
    (req : VerifyRequest)
    (h : runExtract o req.text req.language = .ok []) :
    verifyRun o job_id run_id created_at req =
      (.ok { job_id, run_id, created_at, original_text := req.text,
             claims := [], verifications := [],
             overall_summary := noClaimsSummary },
        [CallEvent.extractorCall]) := by
  unfold verifyRun
  rw [h]

/-- C5 witness: the zero-claims scenario input of the spec against a chat
endpoint that reports no claims. -/
theorem verify_zero_claims_witness :
    verifyRun zeroClaimsOracles ("job-0") ("run-0") ("t0") zeroReq =
      (.ok { job_id := "job-0", run_id := "run-0", created_at := "t0",
             original_text := zeroReq.text, claims := [], verifications := [],
             overall_summary := noClaimsSummary },
        [CallEvent.extractorCall]) :=
  verify_zero_claims zeroClaimsOracles ("job-0") ("run-0") ("t0") zeroReq
    (by with_unfolding_all rfl)

/-- Helper: every successful pass of the per-claim loop returns one
verdict per claim, in order, and each verdict carries its claim id. -/
theorem processClaims_claim_ids (o : Oracles) (language : String) :
    ∀ (claims : List Claim) (verdicts : List ClaimVerdict) (evs : List CallEvent),
      processClaims o language claims = (.ok verdicts, evs) →
      List.Forall₂ (fun (vd : ClaimVerdict) (c : Claim) => vd.claim_id = c.claim_id)
        verdicts claims := by
  intro claims
  induction claims with
  | nil =>
      intro verdicts evs h
      unfold processClaims at h
      obtain ⟨h1, h2⟩ := Prod.ext_iff.mp h
      injection h1 with h1v
      subst h1v
      exact List.Forall₂.nil
  | cons claim rest ih =>
      intro verdicts evs h
      unfold processClaims at h
      rcases hret : retrieve_evidence_for_claim (o.search claim.text) claim with e | evidence
      · rw [hret] at h
        dsimp only at h
        exact absurd (Prod.ext_iff.mp h).1 (by simp)
      · rw [hret] at h
        dsimp only at h
        rcases hver : verify_claim_with_evidence o claim evidence language with e | verification
        · rw [hver] at h
          dsimp only at h
          exact absurd (Prod.ext_iff.mp h).1 (by simp)
        · rw [hver] at h
          dsimp only at h
          rcases hrest : processClaims o language rest with ⟨res1, evs2⟩
          rw [hrest] at h
          cases res1 with
          | error e2 =>
              exact absurd (Prod.ext_iff.mp h).1 (by simp [Except.map])
          | ok vs =>
              obtain ⟨h1, h2⟩ := Prod.ext_iff.mp h
              simp only [Except.map] at h1
              injection h1 with h1v
              subst h1v
              exact List.Forall₂.cons rfl (ih vs evs2 hrest)

/-- C3: every successful run returns exactly as many verifications as
claims, and the verification at each index carries the claim id of the
claim at the same index. -/
theorem verify_order_preserved (o : Oracles) (job_id run_id created_at : String)
    (req : VerifyRequest) (resp : VerifyResponse) (trace : List CallEvent)
    (h : verifyRun o job_id run_id created_at req = (.ok resp, trace)) :
    resp.verifications.length = resp.claims.length ∧
    ∀ i (h1 : i < resp.verifications.length) (h2 : i < resp.claims.length),
      (resp.verifications.get ⟨i, h1⟩).claim_id = (resp.claims.get ⟨i, h2⟩).claim_id := by
  have hf : List.Forall₂ (fun (vd : ClaimVerdict) (c : Claim) => vd.claim_id = c.claim_id)
      resp.verifications resp.claims := by
    unfold verifyRun at h
    rcases hext : runExtract o req.text req.language with e | claims
    · rw [hext] at h
      dsimp only at h
      exact absurd (Prod.ext_iff.mp h).1 (by simp)
    · rw [hext] at h
      cases claims with
      | nil =>
          dsimp only at h
          obtain ⟨h1, h2⟩ := Prod.ext_iff.mp h
          injection h1 with h1v
          subst h1v
          exact List.Forall₂.nil
      | cons c cs =>
          dsimp only at h
          rcases hpc : processClaims o req.language (c :: cs) with ⟨res1, evs⟩
          rw [hpc] at h
          cases res1 with
          | error e =>
              dsimp only at h
              exact absurd (Prod.ext_iff.mp h).1 (by simp)
          | ok verdicts =>
              dsimp only at h
              rcases hsum : summarize_overall
                  (chatJson o.rawChat o.jsonLoads summarySystemPrompt
                    (summaryUserPrompt verdicts req.language)) with e | overall
              · rw [hsum] at h
                dsimp only at h
                exact absurd (Prod.ext_iff.mp h).1 (by simp)
              · rw [hsum] at h
                dsimp only at h
                obtain ⟨h1, h2⟩ := Prod.ext_iff.mp h
                injection h1 with h1v
                subst h1v
                exact processClaims_claim_ids o req.language (c :: cs) verdicts evs hpc
  exact ⟨hf.length_eq, fun i h1 h2 => hf.get h1 h2⟩

set_option maxRecDepth 100000 in
/-- C3 witness: the one-claim end-to-end run has matching claim and
verification counts. -/
theorem verify_order_preserved_witness :
    demoResp.verifications.length = demoResp.claims.length :=
  (verify_order_preserved demoOracles ("job-d") ("run-d") ("t0") demoReq demoResp demoRun.2
    (by with_unfolding_all rfl)).1

end RealityEngine
